import Mathlib

/-!
Verification development for the NutriLens flask backend
(`flask_backend/routes/food_logs.py`, `flask_backend/routes/user_data.py`,
`flask_backend/routes/chat.py`).

Numbers are modelled as exact rationals (`ℚ`).  Python's `round` performs
round-half-to-even, embedded below as `roundHalfEven`; `round(x, 1)` is
`round1`.  Python `datetime.date` values are modelled as proleptic-Gregorian
civil day numbers (`Int`, days since 1970-01-01), with `daysFromCivil` /
`civilFromDays` converting to and from (year, month, day) triples;
`timedelta(days = n)` subtraction is integer subtraction on day numbers, and
comparison of `YYYY-MM-DD` date strings coincides with comparison of day
numbers for well-formed dates.
-/

namespace NutriLens

/-- Round-half-to-even on rationals: the embedding of Python's builtin
`round(x)` (banker's rounding). -/
def roundHalfEven (q : ℚ) : ℤ :=
  let f : ℤ := ⌊q⌋
  if q - f < 1/2 then f
  else if (1:ℚ)/2 < q - f then f + 1
  else if f % 2 = 0 then f else f + 1

/-- The embedding of Python's `round(x, 1)`: round to one decimal digit,
ties to even. -/
def round1 (q : ℚ) : ℚ := (roundHalfEven (q * 10) : ℚ) / 10

/-- Whitespace characters matched by the regex class `\s` on ASCII input. -/
def isSpaceChar (c : Char) : Bool :=
  c = ' ' || c = '\t' || c = '\n' || c = '\x0b' || c = '\x0c' || c = '\r'

/-- Split a character list into its maximal leading run of ASCII digits and
the remainder (the greedy match of `\d+`, or `([], cs)` when no digit
leads). -/
def digitRun : List Char → List Char × List Char
  | [] => ([], [])
  | c :: cs =>
    if c.isDigit then
      let (ds, rest) := digitRun cs
      (c :: ds, rest)
    else ([], c :: cs)

/-- Drop the maximal leading run of `\s` whitespace (the greedy `\s*`). -/
def skipSpaces : List Char → List Char
  | [] => []
  | c :: cs => if isSpaceChar c then skipSpaces cs else c :: cs

/-- Numeric value of a digit string (the `float(...)` of an integer regex
group). -/
def natOfDigits (ds : List Char) : ℕ :=
  ds.foldl (fun acc c => 10 * acc + (c.toNat - '0'.toNat)) 0

/-- Attempt to match the regex `(\d+)\s*ml` (case-insensitive, as compiled in
`ML_PATTERN`) anchored at the head of the character list, returning the value
of group 1.  The digit run is maximal: no shorter run can be followed by
`\s*ml`, since a digit is neither whitespace nor `m`. -/
def mlAt (cs : List Char) : Option ℕ :=
  match digitRun cs with
  | ([], _) => none
  | (ds, rest) =>
    match skipSpaces rest with
    | c1 :: c2 :: _ =>
      if (c1 = 'm' || c1 = 'M') && (c2 = 'l' || c2 = 'L') then some (natOfDigits ds)
      else none
    | _ => none

/-- `ML_PATTERN.search`: first position (scanning left to right) where
`(\d+)\s*ml` matches; `none` when the pattern does not occur. -/
def mlSearch : List Char → Option ℕ
  | [] => none
  | c :: cs =>
    match mlAt (c :: cs) with
    | some v => some v
    | none => mlSearch cs

/-- `ML_PATTERN.search` on a Python string. -/
def mlSearchStr (s : String) : Option ℕ := mlSearch s.toList

/-- Value of the regex group `(\d+(?:\.\d+)?)` given its integer digits and
optional fractional digits. -/
def decimalValue (ds : List Char) (fs : List Char) : ℚ :=
  (natOfDigits ds : ℚ) + (natOfDigits fs : ℚ) / (10 ^ fs.length : ℚ)

/-- After the numeric group of `WEIGHT_PATTERN`, match the remaining
`\s*g(?:rams?)?` (only the leading `g`/`G` decides success; the optional
`rams?` tail never affects group 1). -/
def weightTail (cs : List Char) : Bool :=
  match skipSpaces cs with
  | c :: _ => c = 'g' || c = 'G'
  | [] => false

/-- Attempt to match `(\d+(?:\.\d+)?)\s*g(?:rams?)?` (case-insensitive, as
compiled in `WEIGHT_PATTERN`) anchored at the head, returning the value of
group 1.  The optional fractional group is tried greedily first and dropped
on backtracking, exactly as the regex engine does. -/
def weightAt (cs : List Char) : Option ℚ :=
  match digitRun cs with
  | ([], _) => none
  | (ds, rest) =>
    match rest with
    | '.' :: rest2 =>
      match digitRun rest2 with
      | ([], _) => if weightTail rest then some (decimalValue ds []) else none
      | (fs, rest3) =>
        if weightTail rest3 then some (decimalValue ds fs)
        else if weightTail rest then some (decimalValue ds []) else none
    | _ => if weightTail rest then some (decimalValue ds []) else none

/-- `WEIGHT_PATTERN.search`: first position where the weight pattern
matches. -/
def weightSearch : List Char → Option ℚ
  | [] => none
  | c :: cs =>
    match weightAt (c :: cs) with
    | some v => some v
    | none => weightSearch cs

/-- `WEIGHT_PATTERN.search` on a Python string. -/
def weightSearchStr (s : String) : Option ℚ := weightSearch s.toList

/-- `needle` occurs as a leading segment of `haystack` (character lists). -/
def leadsWith : List Char → List Char → Bool
  | [], _ => true
  | _ :: _, [] => false
  | a :: as, b :: bs => a = b && leadsWith as bs

/-- `needle` occurs as a contiguous segment of `haystack` (character
lists). -/
def hasSegment (needle : List Char) : List Char → Bool
  | [] => leadsWith needle []
  | b :: bs => leadsWith needle (b :: bs) || hasSegment needle bs

/-- `needle in haystack` on Python strings (substring containment). -/
def strContains (needle haystack : String) : Bool :=
  hasSegment needle.toList haystack.toList

/-- Per-entry nutrition values (the seven tracked fields). -/
structure Nutrition where
  calories : ℚ
  protein : ℚ
  carbs : ℚ
  fat : ℚ
  fiber : ℚ
  sugar : ℚ
  sodium : ℚ
deriving DecidableEq, Repr

/-- The all-zero nutrition record. -/
def Nutrition.zero : Nutrition := ⟨0, 0, 0, 0, 0, 0, 0⟩

/-- Field-wise addition (the accumulation done by `get_logs` / `summary`). -/
def Nutrition.add (a b : Nutrition) : Nutrition :=
  ⟨a.calories + b.calories, a.protein + b.protein, a.carbs + b.carbs,
   a.fat + b.fat, a.fiber + b.fiber, a.sugar + b.sugar, a.sodium + b.sodium⟩

/-- A document of the `foods` collection.  Missing numeric nutrient fields
read as `0` via `food.get(field, 0)`, so nutrient fields are plain rationals;
`serving_weight_grams` and `serving_size` may be absent. -/
structure Food where
  name : String
  nutrients : Nutrition
  serving_size : Option String
  serving_weight_grams : Option ℚ
deriving DecidableEq, Repr

/-- `food.get('serving_weight_grams') or 100`: Python's `or` replaces a
missing value and the falsy `0` by `100`. -/
def servingWeightOf (sw : Option ℚ) : ℚ :=
  match sw with
  | none => 100
  | some x => if x = 0 then 100 else x

/-- `food.get('serving_size') or food.get('serving') or '100 g'` (the `serving`
alias is folded into the single optional field; the empty string is falsy). -/
def servingSizeOf (ss : Option String) : String :=
  match ss with
  | none => "100 g"
  | some s => if s = "" then "100 g" else s

/-- The `piece_based_units` vocabulary from `log_food` / `update_log`. -/
def piece_based_units : List String :=
  ["piece", "slice", "egg", "apple", "banana", "cookie", "cracker", "muffin",
   "donut", "bagel", "roll", "meatball", "nugget", "patty", "sausage",
   "hot dog", "burger", "pancake", "waffle", "toast", "biscuit", "croissant",
   "pretzel"]

/-- `is_piece_based = any(piece_unit in unit for piece_unit in
piece_based_units)`. -/
def isPieceBased (unit : String) : Bool :=
  piece_based_units.any (fun u => strContains u unit)

/-- `is_drink = unit in ['can', 'bottle'] or 'ml' in unit`. -/
def isDrink (unit : String) : Bool :=
  unit = "can" || unit = "bottle" || strContains "ml" unit

/-- The unit-normalisation multiplier of `log_food` (and the identical block
of `update_log`).  `unit` is the already lower-cased unit token,
`servingSize` and `servingWeight` the values produced by `servingSizeOf` /
`servingWeightOf`.  After the `or '100 g'` fallback `serving_size` is always
truthy, so the `if serving_size:` guard in the source is always taken. -/
def computeMultiplier (unit : String) (quantity originalAmount : ℚ)
    (servingSize : String) (servingWeight : ℚ) : ℚ :=
  if isDrink unit then
    let serving_size_ml : ℚ :=
      match mlSearchStr servingSize with
      | some v => (v : ℚ)
      | none => servingWeight
    if 0 < serving_size_ml then quantity / serving_size_ml else quantity / 100
  else if isPieceBased unit then
    let weight_per_piece : ℚ :=
      match weightSearchStr servingSize with
      | some v => v
      | none =>
        if strContains "egg" unit then 50
        else if strContains "apple" unit then 182
        else if strContains "banana" unit then 118
        else if servingWeight < 200 then servingWeight
        else 100
    let total_weight := originalAmount * weight_per_piece
    if 0 < servingWeight then total_weight / servingWeight else 1
  else
    if 0 < servingWeight then quantity / servingWeight else quantity / 100

/-- Python's `/` on numbers: it raises `ZeroDivisionError` on a zero divisor,
modelled as `none`. -/
def pyDiv (a b : ℚ) : Option ℚ :=
  if b = 0 then none else some (a / b)

/-- The same unit-normalisation block as `computeMultiplier`, but with every
division performed by `pyDiv`, so a division by zero surfaces as `none`
instead of being absorbed by total rational division.  This is the direct
embedding of the Python semantics of `log_food` lines 73–100; agreement with
`some (computeMultiplier …)` on all inputs is exactly the statement that no
branch can divide by zero. -/
def computeMultiplierPy (unit : String) (quantity originalAmount : ℚ)
    (servingSize : String) (servingWeight : ℚ) : Option ℚ :=
  if isDrink unit then
    let serving_size_ml : ℚ :=
      match mlSearchStr servingSize with
      | some v => (v : ℚ)
      | none => servingWeight
    if 0 < serving_size_ml then pyDiv quantity serving_size_ml
    else pyDiv quantity 100
  else if isPieceBased unit then
    let weight_per_piece : ℚ :=
      match weightSearchStr servingSize with
      | some v => v
      | none =>
        if strContains "egg" unit then 50
        else if strContains "apple" unit then 182
        else if strContains "banana" unit then 118
        else if servingWeight < 200 then servingWeight
        else 100
    let total_weight := originalAmount * weight_per_piece
    if 0 < servingWeight then pyDiv total_weight servingWeight else some 1
  else
    if 0 < servingWeight then pyDiv quantity servingWeight else pyDiv quantity 100

/-- The nutrition snapshot computed at log (or update) time: each per-serving
nutrient scaled by the multiplier, calories rounded to an integer and every
other field rounded to one decimal. -/
def scaleNutrition (v : Nutrition) (m : ℚ) : Nutrition :=
  { calories := (roundHalfEven (v.calories * m) : ℚ)
    protein := round1 (v.protein * m)
    carbs := round1 (v.carbs * m)
    fat := round1 (v.fat * m)
    fiber := round1 (v.fiber * m)
    sugar := round1 (v.sugar * m)
    sodium := round1 (v.sodium * m) }

/-- Civil day number (days since 1970-01-01) of a proleptic-Gregorian date:
the embedding of `datetime.date(y, m, d)`.  Subtracting a `timedelta(days=n)`
is subtraction on day numbers. -/
def daysFromCivil (y m d : ℤ) : ℤ :=
  let y1 : ℤ := if m ≤ 2 then y - 1 else y
  let era : ℤ := (if 0 ≤ y1 then y1 else y1 - 399) / 400
  let yoe : ℤ := y1 - era * 400
  let mp : ℤ := (m + 9) % 12
  let doy : ℤ := (153 * mp + 2) / 5 + d - 1
  let doe : ℤ := yoe * 365 + yoe / 4 - yoe / 100 + doy
  era * 146097 + doe - 719468

/-- Inverse of `daysFromCivil`: the (year, month, day) triple of a civil day
number. -/
def civilFromDays (z0 : ℤ) : ℤ × ℤ × ℤ :=
  let z : ℤ := z0 + 719468
  let era : ℤ := (if 0 ≤ z then z else z - 146096) / 146097
  let doe : ℤ := z - era * 146097
  let yoe : ℤ := (doe - doe / 1460 + doe / 36524 - doe / 146096) / 365
  let y : ℤ := yoe + era * 400
  let doy : ℤ := doe - (365 * yoe + yoe / 4 - yoe / 100)
  let mp : ℤ := (5 * doy + 2) / 153
  let d : ℤ := doy - (153 * mp + 2) / 5 + 1
  let m : ℤ := if mp < 10 then mp + 3 else mp - 9
  (if m ≤ 2 then y + 1 else y, m, d)

/-- `date_obj.strftime('%Y-%m')`: the (year, month) grouping key of a day. -/
def monthKeyOf (z : ℤ) : ℤ × ℤ :=
  ((civilFromDays z).1, (civilFromDays z).2.1)

/-- `datetime(end_date.year, end_date.month, 1)` as a day number. -/
def firstOfMonthDay (z : ℤ) : ℤ :=
  daysFromCivil (civilFromDays z).1 (civilFromDays z).2.1 1

/-- A document of the `user_food_logs` collection.  `logged_at` is split into
its calendar day (civil day number) and its microsecond-of-day: Python
`datetime` has exactly microsecond resolution, so this split is lossless. -/
structure FoodLog where
  user_id : String
  food_id : String
  food_name : String
  quantity : ℚ
  meal_type : String
  loggedDay : ℤ
  loggedMicro : ℕ
  nutrition : Nutrition
deriving DecidableEq, Repr

/-- The two collections touched by the food-log routes: `foods` (keyed by
document id) and `user_food_logs`. -/
structure DB where
  foods : List (String × Food)
  food_logs : List FoodLog
deriving Repr

/-- The Mongo filter of `get_logs` / `summary`: same user and `logged_at`
between `target 00:00:00.000000` and `target 23:59:59.999999` inclusive. -/
def logMatches (uid : String) (day : ℤ) (l : FoodLog) : Bool :=
  l.user_id = uid && l.loggedDay = day && l.loggedMicro ≤ 86399999999

/-- Result shape of `GET /logs`: the day's entries (the route additionally
partitions them into breakfast/lunch/dinner/snack groups, which permutes but
neither adds nor drops entries), the summed `totalNutrition` and
`totalLogs`.  Every nutrition value is read from the stored log document
(`log.get('nutrition', {})`); the `foods` collection is never consulted. -/
structure LogsResult where
  success : Bool
  entries : List FoodLog
  totals : Nutrition
  totalLogs : ℕ
deriving Repr

/-- `GET /logs`: filter the user's logs to the target day, echo each stored
snapshot and sum the stored snapshots.  (The Mongo sort by `logged_at`
descending only reorders `entries`.) -/
def get_logs (db : DB) (uid : String) (day : ℤ) : LogsResult :=
  let logs := db.food_logs.filter (logMatches uid day)
  { success := true
    entries := logs
    totals := logs.foldl (fun t l => t.add l.nutrition) Nutrition.zero
    totalLogs := logs.length }

/-- Overwrite the seven nutrition fields of a food document, leaving its
name and serving metadata unchanged: an admin edit of the food's nutrition
facts. -/
def setNutritionFacts (f : Food) (v : Nutrition) : Food :=
  { f with nutrients := v }

/-- Update the nutrition facts of the food document with id `fid` in the
`foods` collection; the `user_food_logs` collection is untouched. -/
def update_food_nutrition (db : DB) (fid : String) (v : Nutrition) : DB :=
  { db with
    foods := db.foods.map (fun p => if p.1 = fid then (p.1, setNutritionFacts p.2 v) else p) }

/-- `round` applied to the summary totals: calories to an integer, every
other field to one decimal (applied once when the totals dict is built and
once more in the response comprehension). -/
def roundTotals (t : Nutrition) : Nutrition :=
  { calories := (roundHalfEven t.calories : ℚ)
    protein := round1 t.protein
    carbs := round1 t.carbs
    fat := round1 t.fat
    fiber := round1 t.fiber
    sugar := round1 t.sugar
    sodium := round1 t.sodium }

/-- Result shape of `GET /summary`. -/
structure SummaryResult where
  success : Bool
  totals : Nutrition
  totalLogs : ℕ
deriving Repr

/-- `GET /summary`: the aggregation pipeline groups the matching logs into a
single document of field sums and a count; with no matching log the pipeline
returns no document and the route answers zeros.  The totals dict is rounded
when built and rounded again by the response comprehension. -/
def summary (db : DB) (uid : String) (day : ℤ) : SummaryResult :=
  let matched := db.food_logs.filter (logMatches uid day)
  if matched.isEmpty then
    { success := true, totals := Nutrition.zero, totalLogs := 0 }
  else
    { success := true
      totals := roundTotals (roundTotals
        (matched.foldl (fun t l => t.add l.nutrition) Nutrition.zero))
      totalLogs := matched.length }

/-- The request body of `PUT /logs/<log_id>`: each key may be present or
absent (`'quantity' in data` tests presence). -/
structure UpdatePayload where
  quantity : Option ℚ
  unit : Option String
  originalAmount : Option ℚ
  mealType : Option String
deriving Repr

/-- Outcome of the `foods_collection.find_one` lookup inside `update_log`'s
inner `try`: the food was found, no document matched, or the lookup (or the
subsequent recalculation) raised — the inner `except` swallows the exception
after logging it. -/
inductive FoodFetch where
  | found (f : Food)
  | notFound
  | fetchError
deriving Repr

/-- Result of `PUT /logs/<log_id>` on an existing owned log: the response's
success flag and the stored document after the `$set`. -/
structure UpdateResult where
  success : Bool
  newLog : FoodLog
deriving Repr

/-- `update_log` on an existing owned log `log`.  When any of
quantity/unit/originalAmount is supplied, the new quantity is always written;
the nutrition snapshot is recomputed only when the food lookup succeeds, and
a lookup/recalculation exception is swallowed (the quantity update still goes
through and the route still answers success). -/
def update_log (log : FoodLog) (data : UpdatePayload) (fetch : FoodFetch) : UpdateResult :=
  if data.quantity.isSome || data.unit.isSome || data.originalAmount.isSome then
    let quantity := data.quantity.getD log.quantity
    let unit := (data.unit.getD "g").toLower
    let original_amount := data.originalAmount.getD quantity
    let log1 := { log with quantity := quantity }
    let log2 :=
      match fetch with
      | .found food =>
        let serving_weight := servingWeightOf food.serving_weight_grams
        let serving_size := servingSizeOf food.serving_size
        let multiplier := computeMultiplier unit quantity original_amount serving_size serving_weight
        { log1 with nutrition := scaleNutrition food.nutrients multiplier }
      | .notFound => log1
      | .fetchError => log1
    let log3 :=
      match data.mealType with
      | some mt => { log2 with meal_type := mt }
      | none => log2
    { success := true, newLog := log3 }
  else
    let log3 :=
      match data.mealType with
      | some mt => { log with meal_type := mt }
      | none => log
    { success := true, newLog := log3 }

/-- State of the module-level chat rate limiter: `_last_request_time`. -/
structure RLState where
  last : ℚ
deriving DecidableEq, Repr

/-- What the guarded section of `chat_message` decides for one request. -/
inductive RLOutcome where
  | rejected429 (waitSeconds : ℚ)
  | proceed
deriving DecidableEq, Repr

/-- The lock-guarded rate-limit check of `chat_message`: if less than
`minInterval` has elapsed since `_last_request_time` the request is answered
429 immediately (state unchanged, upstream never called); otherwise the
timestamp is set to `now` and the handler proceeds to the upstream call.
Returns (outcome, new state, whether the upstream API is invoked for this
request). -/
def rateLimitStep (minInterval : ℚ) (st : RLState) (now : ℚ) : RLOutcome × RLState × Bool :=
  let wait_seconds := st.last + minInterval - now
  if 0 < wait_seconds then (.rejected429 wait_seconds, st, false)
  else (.proceed, ⟨now⟩, true)

/-- A document of the `daily_meals` collection as seen by the delete route:
its owner and its `date` string key (payload irrelevant to deletion). -/
structure MealsKey where
  userId : String
  date : String
deriving DecidableEq, Repr

/-- HTTP outcome of `DELETE /meals/delete`. -/
inductive DeleteOutcome where
  | badRequest400
  | forbidden403
  | notFound404
  | ok200
deriving DecidableEq, Repr

/-- Mongo `delete_one({'userId': uid, 'date': date})`: remove the first
matching document, or report that none matched. -/
def deleteFirstMeals (uid date : String) : List MealsKey → Option (List MealsKey)
  | [] => none
  | d :: ds =>
    if d.userId = uid && d.date = date then some ds
    else (deleteFirstMeals uid date ds).map (d :: ·)

/-- `DELETE /meals/delete?date=...`: missing date → 400; a date string other
than today's UTC date string → 403 with no deletion; no matching document →
404; otherwise delete the (one) matching document. -/
def delete_meals_by_date (docs : List MealsKey) (uid : String)
    (dateParam : Option String) (todayStr : String) : DeleteOutcome × List MealsKey :=
  match dateParam with
  | none => (.badRequest400, docs)
  | some date_str =>
    if date_str ≠ todayStr then (.forbidden403, docs)
    else
      match deleteFirstMeals uid date_str docs with
      | none => (.notFound404, docs)
      | some docs1 => (.ok200, docs1)

/-- One meal embedded in a `daily_meals` document (`m.get('totalCalories', 0)`
etc.; absent fields read as 0). -/
structure Meal where
  totalCalories : ℚ
  totalProtein : ℚ
  totalCarbs : ℚ
  totalFat : ℚ
deriving DecidableEq, Repr

/-- A `daily_meals` document: owner, `date` key (as a civil day number; the
stored `YYYY-MM-DD` strings compare exactly like day numbers) and the
embedded meal list. -/
structure MealsDoc where
  userId : String
  date : ℤ
  meals : List Meal
deriving DecidableEq, Repr

/-- Sum of one numeric meal field over a document. -/
def docCalories (doc : MealsDoc) : ℚ := (doc.meals.map Meal.totalCalories).sum

/-- Sum of `totalProtein` over a document. -/
def docProtein (doc : MealsDoc) : ℚ := (doc.meals.map Meal.totalProtein).sum

/-- Sum of `totalCarbs` over a document. -/
def docCarbs (doc : MealsDoc) : ℚ := (doc.meals.map Meal.totalCarbs).sum

/-- Sum of `totalFat` over a document. -/
def docFat (doc : MealsDoc) : ℚ := (doc.meals.map Meal.totalFat).sum

/-- The yearly report's date-range test: `start_date = end_date -
timedelta(days=364)` and the Mongo filter `start ≤ date ≤ end` (inclusive,
365 days). -/
def inYearRange (endDate d : ℤ) : Bool :=
  endDate - 364 ≤ d && d ≤ endDate

/-- The documents the yearly report's Mongo query returns (the sort by date
only reorders the list; every aggregate below is order-independent). -/
def yearlyFiltered (docs : List MealsDoc) (uid : String) (endDate : ℤ) : List MealsDoc :=
  docs.filter (fun doc => doc.userId = uid && inYearRange endDate doc.date)

/-- The `monthly_data[month_key]` bucket: all filtered documents whose
`strftime('%Y-%m')` key equals `k`. -/
def monthBucket (docs : List MealsDoc) (k : ℤ × ℤ) : List MealsDoc :=
  docs.filter (fun doc => monthKeyOf doc.date = k)

/-- The 12 month keys of the report: `datetime(end.year, end.month, 1) -
timedelta(days=30*(11-i))` for `i = 0..11`, each reduced to its
`'%Y-%m'` key.  (These keys need not cover—or cover only once—every
calendar month of the 365-day query range.) -/
def genMonthKeys (endDate : ℤ) : List (ℤ × ℤ) :=
  (List.range 12).map (fun i => monthKeyOf (firstOfMonthDay endDate - 30 * (11 - (i : ℤ))))

/-- One entry of the returned `monthlyData` array (meal-derived fields;
the disjoint activity-derived fields `caloriesBurned`/`exerciseDuration`/
`waterIntake` come from the separate `daily_activity` collection and never
interact with these). -/
structure MonthEntry where
  month : ℤ × ℤ
  calories : ℚ
  protein : ℚ
  carbs : ℚ
  fat : ℚ
  mealsCount : ℕ
  daysTracked : ℕ
deriving DecidableEq, Repr

/-- The `report_data` entry for month key `k`: the accumulated bucket values,
protein/carbs/fat rounded to one decimal for presentation. -/
def monthEntry (filtered : List MealsDoc) (k : ℤ × ℤ) : MonthEntry :=
  let bucket := monthBucket filtered k
  { month := k
    calories := (bucket.map docCalories).sum
    protein := round1 ((bucket.map docProtein).sum)
    carbs := round1 ((bucket.map docCarbs).sum)
    fat := round1 ((bucket.map docFat).sum)
    mealsCount := (bucket.map (fun doc => doc.meals.length)).sum
    daysTracked := bucket.length }

/-- The meal-derived part of the `GET /reports/yearly` response. -/
structure YearlyReport where
  success : Bool
  monthlyData : List MonthEntry
  totalCalories : ℚ
  totalProtein : ℚ
  totalCarbs : ℚ
  totalFat : ℚ
  daysTracked : ℕ
deriving Repr

/-- `get_yearly_report`: group the in-range documents by calendar month,
emit one `monthlyData` entry per generated month key, and total the emitted
entries (`totals` / `daysTracked` sum over `report_data`, not over the raw
buckets). -/
def get_yearly_report (docs : List MealsDoc) (uid : String) (endDate : ℤ) : YearlyReport :=
  let filtered := yearlyFiltered docs uid endDate
  let report_data := (genMonthKeys endDate).map (monthEntry filtered)
  { success := true
    monthlyData := report_data
    totalCalories := (report_data.map MonthEntry.calories).sum
    totalProtein := round1 ((report_data.map MonthEntry.protein).sum)
    totalCarbs := round1 ((report_data.map MonthEntry.carbs).sum)
    totalFat := round1 ((report_data.map MonthEntry.fat).sum)
    daysTracked := (report_data.map MonthEntry.daysTracked).sum }

/-! ### Helper lemmas -/

theorem roundHalfEven_spec (q : ℚ) (h : 0 ≤ q) :
    ∃ z : ℤ, ((roundHalfEven q : ℚ) = z) ∧ |(roundHalfEven q : ℚ) - q| ≤ 1/2 ∧
      0 ≤ ((roundHalfEven q : ℚ)) := by
  refine ⟨roundHalfEven q, rfl, ?_, ?_⟩
  · have h1 : ((⌊q⌋ : ℚ)) ≤ q := Int.floor_le q
    have h2 : q < (⌊q⌋ : ℚ) + 1 := Int.lt_floor_add_one q
    unfold roundHalfEven
    dsimp only
    split_ifs with hlt hgt hev <;> rw [abs_le] <;> push_cast <;>
      constructor <;> linarith
  · have h0 : (0 : ℚ) ≤ (⌊q⌋ : ℚ) := by
      exact_mod_cast Int.floor_nonneg.mpr h
    unfold roundHalfEven
    dsimp only
    split_ifs <;> push_cast <;> linarith

theorem round1_spec (q : ℚ) (h : 0 ≤ q) :
    ∃ z : ℤ, (round1 q = (z : ℚ) / 10) ∧ |round1 q - q| ≤ 1/20 ∧ 0 ≤ round1 q := by
  obtain ⟨z, hz, hnear, hpos⟩ := roundHalfEven_spec (q * 10) (by positivity)
  refine ⟨z, ?_, ?_, ?_⟩
  · rw [round1, hz]
  · have : round1 q - q = ((roundHalfEven (q * 10) : ℚ) - q * 10) / 10 := by
      rw [round1]; ring
    rw [this, abs_div]
    rw [abs_of_nonneg (by norm_num : (0:ℚ) ≤ 10)]
    linarith [hnear]
  · rw [round1]
    positivity

/-! ### Claim theorems -/

/-- C1: updating a food document's nutrition fields leaves every stored food
log unchanged, and `get_logs` — which reads only the stored per-log
snapshots — returns exactly the same result afterwards; historical logs are
immune to later food edits. -/
theorem c1_snapshot_frozen (db : DB) (fid : String) (v : Nutrition)
    (uid : String) (day : ℤ) :
    get_logs (update_food_nutrition db fid v) uid day = get_logs db uid day ∧
    (update_food_nutrition db fid v).food_logs = db.food_logs :=
  ⟨rfl, rfl⟩

/-- C2 (counterexample): with `serving_size = "330 ml"` and `unit = "can"`,
quantity 1 yields multiplier 1/330, not 1.0 — the code divides the raw
quantity by the parsed millilitre amount. -/
theorem c2_counterexample :
    computeMultiplier "can" 1 1 (servingSizeOf (some "330 ml"))
        (servingWeightOf (some 150)) = 1 / 330 ∧
    (1 / 330 : ℚ) ≠ 1 := by
  constructor
  · have hml : mlSearchStr (servingSizeOf (some "330 ml")) = some 330 := by decide
    have hd : isDrink "can" = true := by decide
    simp only [computeMultiplier, hd, if_true, hml]
    norm_num
  · norm_num

/-- C2 (amended): for a volume-container unit whose `serving_size` parses to
a positive millilitre amount `v`, the multiplier is `quantity / v` for every
`serving_weight_grams`; in particular `serving_size = "330 ml"` gives
`quantity / 330`, so a full 330 ml can corresponds to `quantity = 330`, not
`quantity = 1`. -/
theorem c2_volume_multiplier (unit : String) (q oa : ℚ) (ss : String) (w : ℚ)
    (v : ℕ) (hu : isDrink unit = true) (hml : mlSearchStr ss = some v)
    (hv : 0 < v) :
    computeMultiplier unit q oa ss w = q / (v : ℚ) := by
  have hv' : (0 : ℚ) < (v : ℚ) := by exact_mod_cast hv
  simp only [computeMultiplier, hu, if_true, hml, if_pos hv']

/-- C2 witness: a full can (`quantity = 330`) of a `"330 ml"` food gives
multiplier `330 / 330 = 1` whatever the serving weight. -/
theorem c2_volume_multiplier_witness :
    computeMultiplier "can" 330 330 "330 ml" 150 = (330 : ℚ) / 330 :=
  c2_volume_multiplier "can" 330 330 "330 ml" 150 330 (by decide) (by decide)
    (by decide)

/-- C4: with `unit = "g"` the unit matches neither the piece-based
vocabulary nor the volume-container test, and for positive quantity `q` and
positive `serving_weight_grams = w` the plain-weight branch yields exactly
`q / w`. -/
theorem c4_gram_multiplier (q w oa : ℚ) (ss : Option String)
    (hq : 0 < q) (hw : 0 < w) :
    isDrink "g" = false ∧ isPieceBased "g" = false ∧
    computeMultiplier "g" q oa (servingSizeOf ss) (servingWeightOf (some w)) = q / w := by
  refine ⟨by decide, by decide, ?_⟩
  have hsw : servingWeightOf (some w) = w := by
    simp [servingWeightOf, hw.ne']
  simp only [computeMultiplier, hsw, show isDrink "g" = false from by decide,
    show isPieceBased "g" = false from by decide, Bool.false_eq_true, if_false,
    if_pos hw]

/-- C4 witness: 50 g of a 100 g-serving food gives multiplier 50/100. -/
theorem c4_gram_multiplier_witness :
    isDrink "g" = false ∧ isPieceBased "g" = false ∧
    computeMultiplier "g" 50 50 (servingSizeOf none) (servingWeightOf (some 100))
      = 50 / 100 :=
  c4_gram_multiplier 50 100 50 none (by norm_num) (by norm_num)

/-- C5: for non-negative nutrient values and a non-negative multiplier the
snapshot's calories are an integer within 1/2 of the raw product, every other
field is an integer number of tenths within 1/20 of its raw product, and all
fields are non-negative.  (`scaleNutrition` is by construction a pure
function of exactly the food's nutrient values and the multiplier.) -/
theorem c5_snapshot_rounding (v : Nutrition) (m : ℚ)
    (hcal : 0 ≤ v.calories) (hpro : 0 ≤ v.protein) (hcarb : 0 ≤ v.carbs)
    (hfat : 0 ≤ v.fat) (hfib : 0 ≤ v.fiber) (hsug : 0 ≤ v.sugar)
    (hsod : 0 ≤ v.sodium) (hm : 0 ≤ m) :
    (∃ z : ℤ, (scaleNutrition v m).calories = (z : ℚ) ∧
      |(scaleNutrition v m).calories - v.calories * m| ≤ 1/2 ∧
      0 ≤ (scaleNutrition v m).calories) ∧
    (∃ z : ℤ, (scaleNutrition v m).protein = (z : ℚ) / 10 ∧
      |(scaleNutrition v m).protein - v.protein * m| ≤ 1/20 ∧
      0 ≤ (scaleNutrition v m).protein) ∧
    (∃ z : ℤ, (scaleNutrition v m).carbs = (z : ℚ) / 10 ∧
      |(scaleNutrition v m).carbs - v.carbs * m| ≤ 1/20 ∧
      0 ≤ (scaleNutrition v m).carbs) ∧
    (∃ z : ℤ, (scaleNutrition v m).fat = (z : ℚ) / 10 ∧
      |(scaleNutrition v m).fat - v.fat * m| ≤ 1/20 ∧
      0 ≤ (scaleNutrition v m).fat) ∧
    (∃ z : ℤ, (scaleNutrition v m).fiber = (z : ℚ) / 10 ∧
      |(scaleNutrition v m).fiber - v.fiber * m| ≤ 1/20 ∧
      0 ≤ (scaleNutrition v m).fiber) ∧
    (∃ z : ℤ, (scaleNutrition v m).sugar = (z : ℚ) / 10 ∧
      |(scaleNutrition v m).sugar - v.sugar * m| ≤ 1/20 ∧
      0 ≤ (scaleNutrition v m).sugar) ∧
    (∃ z : ℤ, (scaleNutrition v m).sodium = (z : ℚ) / 10 ∧
      |(scaleNutrition v m).sodium - v.sodium * m| ≤ 1/20 ∧
      0 ≤ (scaleNutrition v m).sodium) := by
  refine ⟨roundHalfEven_spec _ (mul_nonneg hcal hm),
    round1_spec _ (mul_nonneg hpro hm), round1_spec _ (mul_nonneg hcarb hm),
    round1_spec _ (mul_nonneg hfat hm), round1_spec _ (mul_nonneg hfib hm),
    round1_spec _ (mul_nonneg hsug hm), round1_spec _ (mul_nonneg hsod hm)⟩

/-- C5 witness: the rounding facts at a concrete snapshot (95 kcal, 0.5 g
protein per serving, multiplier 1). -/
theorem c5_snapshot_rounding_witness :
    (∃ z : ℤ, (scaleNutrition ⟨95, 1/2, 25, 3/10, 22/5, 19, 2⟩ 1).calories = (z : ℚ) ∧
      |(scaleNutrition ⟨95, 1/2, 25, 3/10, 22/5, 19, 2⟩ 1).calories - 95 * 1| ≤ 1/2 ∧
      0 ≤ (scaleNutrition ⟨95, 1/2, 25, 3/10, 22/5, 19, 2⟩ 1).calories) ∧
    (∃ z : ℤ, (scaleNutrition ⟨95, 1/2, 25, 3/10, 22/5, 19, 2⟩ 1).protein = (z : ℚ) / 10 ∧
      |(scaleNutrition ⟨95, 1/2, 25, 3/10, 22/5, 19, 2⟩ 1).protein - (1/2) * 1| ≤ 1/20 ∧
      0 ≤ (scaleNutrition ⟨95, 1/2, 25, 3/10, 22/5, 19, 2⟩ 1).protein) ∧
    (∃ z : ℤ, (scaleNutrition ⟨95, 1/2, 25, 3/10, 22/5, 19, 2⟩ 1).carbs = (z : ℚ) / 10 ∧
      |(scaleNutrition ⟨95, 1/2, 25, 3/10, 22/5, 19, 2⟩ 1).carbs - 25 * 1| ≤ 1/20 ∧
      0 ≤ (scaleNutrition ⟨95, 1/2, 25, 3/10, 22/5, 19, 2⟩ 1).carbs) ∧
    (∃ z : ℤ, (scaleNutrition ⟨95, 1/2, 25, 3/10, 22/5, 19, 2⟩ 1).fat = (z : ℚ) / 10 ∧
      |(scaleNutrition ⟨95, 1/2, 25, 3/10, 22/5, 19, 2⟩ 1).fat - (3/10) * 1| ≤ 1/20 ∧
      0 ≤ (scaleNutrition ⟨95, 1/2, 25, 3/10, 22/5, 19, 2⟩ 1).fat) ∧
    (∃ z : ℤ, (scaleNutrition ⟨95, 1/2, 25, 3/10, 22/5, 19, 2⟩ 1).fiber = (z : ℚ) / 10 ∧
      |(scaleNutrition ⟨95, 1/2, 25, 3/10, 22/5, 19, 2⟩ 1).fiber - (22/5) * 1| ≤ 1/20 ∧
      0 ≤ (scaleNutrition ⟨95, 1/2, 25, 3/10, 22/5, 19, 2⟩ 1).fiber) ∧
    (∃ z : ℤ, (scaleNutrition ⟨95, 1/2, 25, 3/10, 22/5, 19, 2⟩ 1).sugar = (z : ℚ) / 10 ∧
      |(scaleNutrition ⟨95, 1/2, 25, 3/10, 22/5, 19, 2⟩ 1).sugar - 19 * 1| ≤ 1/20 ∧
      0 ≤ (scaleNutrition ⟨95, 1/2, 25, 3/10, 22/5, 19, 2⟩ 1).sugar) ∧
    (∃ z : ℤ, (scaleNutrition ⟨95, 1/2, 25, 3/10, 22/5, 19, 2⟩ 1).sodium = (z : ℚ) / 10 ∧
      |(scaleNutrition ⟨95, 1/2, 25, 3/10, 22/5, 19, 2⟩ 1).sodium - 2 * 1| ≤ 1/20 ∧
      0 ≤ (scaleNutrition ⟨95, 1/2, 25, 3/10, 22/5, 19, 2⟩ 1).sodium) :=
  c5_snapshot_rounding ⟨95, 1/2, 25, 3/10, 22/5, 19, 2⟩ 1 (by norm_num)
    (by norm_num) (by norm_num) (by norm_num) (by norm_num) (by norm_num)
    (by norm_num) (by norm_num)

/-- C6: a zero or missing `serving_weight_grams` is replaced by 100, and the
unit normaliser run under Python division semantics (`pyDiv`: a zero divisor
raises, i.e. yields `none`) never fails and agrees with the total-division
model on every input — in every branch (volume, piece-based, plain weight)
the divisor actually used is guarded to be positive, so no division by zero
occurs. -/
theorem c6_no_division_by_zero :
    (∀ sw : Option ℚ, sw = none ∨ sw = some 0 → servingWeightOf sw = 100) ∧
    (∀ (unit : String) (q oa : ℚ) (ss : String) (w : ℚ),
      computeMultiplierPy unit q oa ss w = some (computeMultiplier unit q oa ss w)) := by
  constructor
  · rintro sw (rfl | rfl) <;> simp [servingWeightOf]
  · intro unit q oa ss w
    unfold computeMultiplierPy computeMultiplier pyDiv
    dsimp only
    split_ifs <;> first | rfl | linarith

/-- C6 witness: the zero/missing fallback, and checked division succeeding on
a concrete input. -/
theorem c6_no_division_by_zero_witness :
    servingWeightOf none = 100 ∧
    computeMultiplierPy "g" 50 50 "100 g" 100
      = some (computeMultiplier "g" 50 50 "100 g" 100) :=
  ⟨c6_no_division_by_zero.1 none (Or.inl rfl),
   c6_no_division_by_zero.2 "g" 50 50 "100 g" 100⟩

/-- C7: on a day with no matching log entries both `GET /logs` and
`GET /summary` succeed with all seven totals zero and a log count of
zero. -/
theorem c7_empty_day_zero_totals (db : DB) (uid : String) (day : ℤ)
    (h : db.food_logs.filter (logMatches uid day) = []) :
    (get_logs db uid day).success = true ∧
    (get_logs db uid day).totals = Nutrition.zero ∧
    (get_logs db uid day).totalLogs = 0 ∧
    (summary db uid day).success = true ∧
    (summary db uid day).totals = Nutrition.zero ∧
    (summary db uid day).totalLogs = 0 := by
  simp [get_logs, summary, h]

/-- C7 witness: the empty database. -/
theorem c7_empty_day_zero_totals_witness :
    (get_logs ⟨[], []⟩ "u" 20157).success = true ∧
    (get_logs ⟨[], []⟩ "u" 20157).totals = Nutrition.zero ∧
    (get_logs ⟨[], []⟩ "u" 20157).totalLogs = 0 ∧
    (summary ⟨[], []⟩ "u" 20157).success = true ∧
    (summary ⟨[], []⟩ "u" 20157).totals = Nutrition.zero ∧
    (summary ⟨[], []⟩ "u" 20157).totalLogs = 0 :=
  c7_empty_day_zero_totals ⟨[], []⟩ "u" 20157 rfl

/-- C8: a chat request arriving strictly less than the minimum interval
after the recorded time of the last call is rejected with 429 immediately,
the limiter state is unchanged (nothing is queued for later), and the
upstream API is not invoked for it. -/
theorem c8_rate_limit_rejects_early (minInterval : ℚ) (st : RLState) (now : ℚ)
    (h : now - st.last < minInterval) :
    rateLimitStep minInterval st now =
      (.rejected429 (st.last + minInterval - now), st, false) := by
  simp only [rateLimitStep]
  rw [if_pos (by linarith)]

/-- C8 witness: a request 2 s after the last call with a 5 s minimum
interval. -/
theorem c8_rate_limit_rejects_early_witness :
    rateLimitStep 5 ⟨100⟩ 102 = (.rejected429 (100 + 5 - 102), ⟨100⟩, false) :=
  c8_rate_limit_rejects_early 5 ⟨100⟩ 102 (by norm_num)

/-- C9: updating a log with a new quantity when the food lookup (or the
recalculation) raises still reports success, persists the new quantity and
keeps the old nutrition snapshot — the update is not atomic. -/
theorem c9_update_not_atomic (log : FoodLog) (data : UpdatePayload) (q : ℚ)
    (hq : data.quantity = some q) :
    (update_log log data .fetchError).success = true ∧
    (update_log log data .fetchError).newLog.quantity = q ∧
    (update_log log data .fetchError).newLog.nutrition = log.nutrition := by
  simp only [update_log, hq, Option.isSome_some, Bool.true_or, if_true,
    Option.getD_some]
  cases data.mealType <;> simp

/-- C9 witness: a quantity-only update against a failing food lookup. -/
theorem c9_update_not_atomic_witness :
    (update_log ⟨"u", "f", "Apple", 1, "snack", 0, 0, Nutrition.zero⟩
        ⟨some 5, none, none, none⟩ .fetchError).success = true ∧
    (update_log ⟨"u", "f", "Apple", 1, "snack", 0, 0, Nutrition.zero⟩
        ⟨some 5, none, none, none⟩ .fetchError).newLog.quantity = 5 ∧
    (update_log ⟨"u", "f", "Apple", 1, "snack", 0, 0, Nutrition.zero⟩
        ⟨some 5, none, none, none⟩ .fetchError).newLog.nutrition = Nutrition.zero :=
  c9_update_not_atomic ⟨"u", "f", "Apple", 1, "snack", 0, 0, Nutrition.zero⟩
    ⟨some 5, none, none, none⟩ 5 rfl

/-- C10: deleting the meals document of a date other than the current UTC
day is rejected with 403 and changes nothing; deleting today's date with no
stored document yields 404 and changes nothing; a successful deletion is
possible only for the current day's date. -/
theorem c10_delete_only_today (docs : List MealsKey) (uid d today : String) :
    (d ≠ today → delete_meals_by_date docs uid (some d) today = (.forbidden403, docs)) ∧
    (d = today → deleteFirstMeals uid d docs = none →
      delete_meals_by_date docs uid (some d) today = (.notFound404, docs)) ∧
    (∀ docs1, delete_meals_by_date docs uid (some d) today = (.ok200, docs1) →
      d = today) := by
  refine ⟨fun h => ?_, fun h h2 => ?_, fun docs1 h => ?_⟩
  · simp [delete_meals_by_date, h]
  · subst h
    simp [delete_meals_by_date, h2]
  · by_contra hne
    simp only [delete_meals_by_date, if_pos hne] at h
    exact DeleteOutcome.noConfusion (congrArg Prod.fst h)

/-- C10 witness: deleting yesterday's document is forbidden and leaves the
store unchanged. -/
theorem c10_delete_only_today_witness :
    delete_meals_by_date [⟨"u", "2025-01-02"⟩] "u" (some "2025-01-01") "2025-01-02"
      = (.forbidden403, [⟨"u", "2025-01-02"⟩]) :=
  (c10_delete_only_today [⟨"u", "2025-01-02"⟩] "u" "2025-01-01" "2025-01-02").1
    (by decide)

/-! ### Yearly-report bucket accounting (C3) -/

theorem sum_map_ite_filter {α M : Type} [AddCommMonoid M] (keys : List α)
    (p : α → Prop) [DecidablePred p] (c : M) :
    (keys.map (fun k => if p k then c else 0)).sum
      = (keys.filter (fun k => p k)).length • c := by
  induction keys with
  | nil => simp
  | cons k ks ih =>
    by_cases h : p k
    · simp only [List.map_cons, List.sum_cons, ih, List.filter_cons, h,
        if_true, decide_true_eq_true, List.length_cons, succ_nsmul]
      exact add_comm c _
    · simp [List.filter_cons, h, ih]

theorem sum_buckets {M : Type} [AddCommMonoid M] (keys : List (ℤ × ℤ))
    (docs : List MealsDoc) (f : MealsDoc → M) :
    (keys.map (fun k => ((monthBucket docs k).map f).sum)).sum
      = (docs.map (fun d =>
          ((keys.filter (fun k => monthKeyOf d.date = k)).length) • f d)).sum := by
  induction docs with
  | nil => simp [monthBucket]
  | cons d ds ih =>
    have hstep : ∀ k : ℤ × ℤ, ((monthBucket (d :: ds) k).map f).sum
        = (if monthKeyOf d.date = k then f d else 0)
            + ((monthBucket ds k).map f).sum := by
      intro k
      by_cases h : monthKeyOf d.date = k <;>
        simp [monthBucket, List.filter_cons, h]
    simp only [hstep, List.sum_map_add, ih, sum_map_ite_filter, List.map_cons,
      List.sum_cons]

theorem yearly_totalCalories (docs : List MealsDoc) (uid : String) (endDate : ℤ) :
    (get_yearly_report docs uid endDate).totalCalories
      = ((yearlyFiltered docs uid endDate).map (fun d =>
          (((genMonthKeys endDate).filter
              (fun k => monthKeyOf d.date = k)).length : ℚ) * docCalories d)).sum := by
  have h : (get_yearly_report docs uid endDate).totalCalories
      = ((genMonthKeys endDate).map (fun k =>
          ((monthBucket (yearlyFiltered docs uid endDate) k).map docCalories).sum)).sum := by
    simp only [get_yearly_report, List.map_map]
    rfl
  rw [h, sum_buckets]
  simp [nsmul_eq_mul]

theorem yearly_daysTracked (docs : List MealsDoc) (uid : String) (endDate : ℤ) :
    (get_yearly_report docs uid endDate).daysTracked
      = ((yearlyFiltered docs uid endDate).map (fun d =>
          ((genMonthKeys endDate).filter
            (fun k => monthKeyOf d.date = k)).length)).sum := by
  have h : (get_yearly_report docs uid endDate).daysTracked
      = ((genMonthKeys endDate).map (fun k =>
          (monthBucket (yearlyFiltered docs uid endDate) k).length)).sum := by
    simp only [get_yearly_report, List.map_map]
    rfl
  have hlen : ∀ (l : List MealsDoc), l.length = (l.map (fun _ => (1 : ℕ))).sum := by
    intro l; simp
  rw [h]
  simp only [hlen]
  rw [sum_buckets]
  simp

/-- C3 (counterexample): with `end_date = 2025-03-10` the 365-day range
starts 2024-03-11, yet the 12 generated month keys are 2024-04 … 2025-03
(with 2024-12 duplicated and 2025-02 skipped); a document dated 2024-03-20
is returned by the range query but its calendar month is in no returned
bucket, so its 100 kcal are missing from the grand totals and it is counted
in no `daysTracked`. -/
theorem c3_counterexample :
    yearlyFiltered [⟨"u", daysFromCivil 2024 3 20, [⟨100, 0, 0, 0⟩]⟩] "u"
        (daysFromCivil 2025 3 10)
      = [⟨"u", daysFromCivil 2024 3 20, [⟨100, 0, 0, 0⟩]⟩] ∧
    docCalories ⟨"u", daysFromCivil 2024 3 20, [⟨100, 0, 0, 0⟩]⟩ = 100 ∧
    (get_yearly_report [⟨"u", daysFromCivil 2024 3 20, [⟨100, 0, 0, 0⟩]⟩] "u"
        (daysFromCivil 2025 3 10)).totalCalories = 0 ∧
    (get_yearly_report [⟨"u", daysFromCivil 2024 3 20, [⟨100, 0, 0, 0⟩]⟩] "u"
        (daysFromCivil 2025 3 10)).daysTracked = 0 ∧
    (0 : ℚ) ≠ 100 := by
  have hf : yearlyFiltered [⟨"u", daysFromCivil 2024 3 20, [⟨100, 0, 0, 0⟩]⟩] "u"
      (daysFromCivil 2025 3 10)
      = [⟨"u", daysFromCivil 2024 3 20, [⟨100, 0, 0, 0⟩]⟩] := by
    simp only [yearlyFiltered, List.filter_cons, List.filter_nil]
    rw [if_pos (by decide)]
  have hcount : (((genMonthKeys (daysFromCivil 2025 3 10)).filter
      (fun k => monthKeyOf (daysFromCivil 2024 3 20) = k)).length) = 0 := by decide
  refine ⟨hf, by simp [docCalories], ?_, ?_, by norm_num⟩
  · rw [yearly_totalCalories, hf]
    simp [hcount]
  · rw [yearly_daysTracked, hf]
    simp [hcount]

/-- C3 (amended): each in-range daily-meals document is grouped into exactly
one calendar-month bucket, and provided every in-range document's calendar
month occurs exactly once among the 12 generated month keys, the report's
grand calorie total is the sum over all in-range documents and `daysTracked`
counts every in-range document; when a month is missing from (or repeated
in) the generated keys, its documents are omitted (or double-counted). -/
theorem c3_yearly_report_totals (docs : List MealsDoc) (uid : String) (endDate : ℤ)
    (h : ∀ doc ∈ yearlyFiltered docs uid endDate,
      ((genMonthKeys endDate).filter (fun k => monthKeyOf doc.date = k)).length = 1) :
    (get_yearly_report docs uid endDate).totalCalories
      = ((yearlyFiltered docs uid endDate).map docCalories).sum ∧
    (get_yearly_report docs uid endDate).daysTracked
      = (yearlyFiltered docs uid endDate).length := by
  constructor
  · rw [yearly_totalCalories]
    rw [List.map_congr_left (fun d hd => by rw [h d hd]; norm_num :
      ∀ d ∈ yearlyFiltered docs uid endDate,
        (((genMonthKeys endDate).filter
            (fun k => monthKeyOf d.date = k)).length : ℚ) * docCalories d
          = docCalories d)]
  · rw [yearly_daysTracked]
    rw [List.map_congr_left (fun d hd => h d hd :
      ∀ d ∈ yearlyFiltered docs uid endDate,
        ((genMonthKeys endDate).filter
          (fun k => monthKeyOf d.date = k)).length = 1)]
    simp

/-- C3 witness: a single in-range document dated 2025-01-15, whose month key
2025-01 occurs exactly once among the generated keys. -/
theorem c3_yearly_report_totals_witness :
    (get_yearly_report [⟨"u", daysFromCivil 2025 1 15, [⟨100, 0, 0, 0⟩]⟩] "u"
        (daysFromCivil 2025 3 10)).totalCalories
      = ((yearlyFiltered [⟨"u", daysFromCivil 2025 1 15, [⟨100, 0, 0, 0⟩]⟩] "u"
          (daysFromCivil 2025 3 10)).map docCalories).sum ∧
    (get_yearly_report [⟨"u", daysFromCivil 2025 1 15, [⟨100, 0, 0, 0⟩]⟩] "u"
        (daysFromCivil 2025 3 10)).daysTracked
      = (yearlyFiltered [⟨"u", daysFromCivil 2025 1 15, [⟨100, 0, 0, 0⟩]⟩] "u"
          (daysFromCivil 2025 3 10)).length :=
  c3_yearly_report_totals [⟨"u", daysFromCivil 2025 1 15, [⟨100, 0, 0, 0⟩]⟩] "u"
    (daysFromCivil 2025 3 10)
    (by
      intro doc hd
      have hd1 : doc ∈ [(⟨"u", daysFromCivil 2025 1 15, [⟨100, 0, 0, 0⟩]⟩ : MealsDoc)] :=
        List.mem_of_mem_filter hd
      rw [List.mem_singleton] at hd1
      subst hd1
      decide)

end NutriLens
